/-
  Verification of the backend-agnostic core of errbot (errbot/backends/base.py):
  the identity model (Person / RoomOccupant / Room classification), the Message
  and Presence value objects, the Stream transfer state machine, and the Backend
  runtime with its reconnection-backoff serve loop.

  The Python source is shallowly embedded: classes become structures, methods
  become pure functions, a raised exception becomes an `Except` error result
  (a raise leaves the object unmutated, which the pure embedding reflects by
  returning no new state on error), Python floats in the backoff computation
  become exact rationals (all values reached by the claims are exactly
  representable in binary floating point, so the rational model agrees with
  the float execution on them), and `random.uniform(0, 3)` becomes an explicit
  jitter argument.
-/
import Mathlib

namespace Errbot

/-- Classification tag of an identifier, as in the source class hierarchy:
`Person`, `RoomOccupant` and `Room` each subclass `Identifier` directly, so a
`RoomOccupant` is neither a `Person` nor a `Room` for `isinstance` purposes.
The concrete fields (`person`, `client`, `nick`, `aclattr`, `fullname`,
`room`, topics, occupants, ...) are all abstract in the base classes and are
supplied only by concrete adapters, so the embedding keeps only the tag the
base file itself determines. -/
inductive Identifier
  | person
  | roomOccupant
  | room
deriving DecidableEq, Repr

/-- Kind of error raised by the embedded code; the base file only ever raises
`ValueError` in the code paths the claims touch. -/
inductive PyErr
  | valueError (msg : String)
deriving DecidableEq, Repr

/- ----------------------------------------------------------------
   Stream transfer state machine (class Stream, base.py lines 412-528)
   ---------------------------------------------------------------- -/

/-- The stream status constants STREAM_WAITING_TO_START ('pending'),
STREAM_TRANSFER_IN_PROGRESS ('in progress'), STREAM_SUCCESSFULLY_TRANSFERED
('success'), STREAM_PAUSED ('paused'), STREAM_ERROR ('error'),
STREAM_REJECTED ('rejected'). -/
inductive StreamStatus
  | pending
  | in_progress
  | success
  | paused
  | error
  | rejected
deriving DecidableEq, Repr

def DEFAULT_REASON : String := "unknown"

/-- A Stream wraps a binary source (kept as an abstract handle `fsource`)
with transfer bookkeeping, mirroring Stream.__init__. -/
structure Stream where
  identifier : Option Identifier
  fsource : Nat
  name : Option String
  size : Option Nat
  stream_type : Option String
  status : StreamStatus
  reason : String
  transfered : Nat
deriving DecidableEq, Repr

/-- Stream.__init__: status starts at pending, reason at DEFAULT_REASON,
transfered at 0. -/
def Stream.init (identifier : Option Identifier) (fsource : Nat)
    (name : Option String) (size : Option Nat) (stream_type : Option String) :
    Stream :=
  { identifier := identifier, fsource := fsource, name := name, size := size,
    stream_type := stream_type, status := StreamStatus.pending,
    reason := DEFAULT_REASON, transfered := 0 }

/-- Stream.accept: raises ValueError unless the status is pending, else moves
to in progress. -/
def Stream.accept (s : Stream) : Except PyErr Stream :=
  if s.status ≠ StreamStatus.pending then
    Except.error (PyErr.valueError "Invalid state, the stream is not pending.")
  else
    Except.ok { s with status := StreamStatus.in_progress }

/-- Stream.reject: raises ValueError unless the status is pending, else moves
to rejected. -/
def Stream.reject (s : Stream) : Except PyErr Stream :=
  if s.status ≠ StreamStatus.pending then
    Except.error (PyErr.valueError "Invalid state, the stream is not pending.")
  else
    Except.ok { s with status := StreamStatus.rejected }

/-- Stream.error: unconditional, sets status to error and records the reason
(the Python default argument is DEFAULT_REASON = 'unknown'). -/
def Stream.error (s : Stream) (reason : String) : Stream :=
  { s with status := StreamStatus.error, reason := reason }

/-- Stream.success: raises ValueError unless the status is in progress, else
moves to success. -/
def Stream.success (s : Stream) : Except PyErr Stream :=
  if s.status ≠ StreamStatus.in_progress then
    Except.error (PyErr.valueError "Invalid state, the stream is not in progress.")
  else
    Except.ok { s with status := StreamStatus.success }

/-- Stream.clone: a fresh Stream over a new binary source sharing
identifier/name/size/stream_type, reset to pending by __init__. -/
def Stream.clone (s : Stream) (new_fsource : Nat) : Stream :=
  Stream.init s.identifier new_fsource s.name s.size s.stream_type

/-- Stream.ack_data: `self._transfered = length` — it assigns the counter to
the given length, it does not accumulate. -/
def Stream.ack_data (s : Stream) (length : Nat) : Stream :=
  { s with transfered := length }

/- ----------------------------------------------------------------
   Presence (class Presence, base.py lines 344-410)
   ---------------------------------------------------------------- -/

structure Presence where
  identifier : Identifier
  status : Option String
  message : Option String
deriving DecidableEq, Repr

/-- Presence.__init__: raises ValueError when the identifier is None, then
raises ValueError when both status and message are None, otherwise stores the
three fields. -/
def Presence.init (identifier : Option Identifier) (status : Option String)
    (message : Option String) : Except PyErr Presence :=
  match identifier with
  | none => Except.error (PyErr.valueError "Presence: identifiers is None")
  | some i =>
    if status = none ∧ message = none then
      Except.error (PyErr.valueError
        "Presence: at least a new status or a new status message mustbe present")
    else
      Except.ok { identifier := i, status := status, message := message }

/- ----------------------------------------------------------------
   Message (class Message, base.py lines 224-336)
   ---------------------------------------------------------------- -/

/-- An extras mapping (backend-attached extra data); the value type is kept
abstract as a string. -/
abbrev ExtrasMap := List (String × String)

/-- A minimal heap tracking the extras mappings by reference (a cell index)
and an allocation counter giving each constructed Message its identity; this
makes Python reference sharing and object identity expressible in the pure
embedding. -/
structure Heap where
  cells : List ExtrasMap
  nextObj : Nat
deriving DecidableEq, Repr

/-- Allocate a fresh extras cell, returning its reference. -/
def Heap.allocCell (h : Heap) (m : ExtrasMap) : Nat × Heap :=
  (h.cells.length, { h with cells := h.cells ++ [m] })

/-- Dereference an extras cell. -/
def Heap.lookup (h : Heap) (r : Nat) : ExtrasMap :=
  h.cells.getD r []

/-- The field `to_` embeds the source field `to` (`to` is a reserved token
in Lean). -/
structure Message where
  objId : Nat
  body : String
  frm : Option Identifier
  to_ : Option Identifier
  delayed : Bool
  extrasRef : Nat
deriving DecidableEq, Repr

/-- Message.__init__: `self._extras = extras or dict()` — a fresh dict is
allocated both when `extras` is None and when it is a falsy (empty) dict;
only a truthy (non-empty) dict argument is stored by reference. `compat_str`
(from errbot.utils, outside this file) is the identity on str bodies, so the
body is stored as given. The returned Message carries a fresh object id. -/
def Message.make (h : Heap) (body : String) (frm : Option Identifier)
    (to_ : Option Identifier) (delayed : Bool) (extras : Option Nat) :
    Message × Heap :=
  let rh :=
    match extras with
    | none => h.allocCell []
    | some r => if (h.lookup r).isEmpty then h.allocCell [] else (r, h)
  ({ objId := rh.2.nextObj, body := body, frm := frm, to_ := to_,
     delayed := delayed, extrasRef := rh.1 },
   { rh.2 with nextObj := rh.2.nextObj + 1 })

/-- Message.clone: `Message(self._body, self._from, self._to, self._delayed,
self.extras)` — it re-runs the constructor on the current field values,
passing the extras mapping itself. -/
def Message.clone (m : Message) (h : Heap) : Message × Heap :=
  Message.make h m.body m.frm m.to_ m.delayed (some m.extrasRef)

/-- Message.is_direct: `isinstance(self.to, Person)`. -/
def Message.is_direct (m : Message) : Bool :=
  match m.to_ with
  | some Identifier.person => true
  | _ => false

/-- Message.is_group: `isinstance(self.to, Room)`. -/
def Message.is_group (m : Message) : Bool :=
  match m.to_ with
  | some Identifier.room => true
  | _ => false

/- ----------------------------------------------------------------
   Backend runtime (class Backend, base.py lines 531-634)
   ---------------------------------------------------------------- -/

/-- The mutable reconnection state set up by Backend.__init__. -/
structure BackendState where
  reconnection_count : Nat
  reconnection_delay : ℚ
  reconnection_max_delay : ℚ
  reconnection_multiplier : ℚ
  reconnection_jitter_lo : ℚ
  reconnection_jitter_hi : ℚ
deriving DecidableEq, Repr

/-- Backend.__init__: count 0, delay 1, max delay 600, multiplier 1.75,
jitter bounds (0, 3). -/
def Backend.init : BackendState :=
  { reconnection_count := 0, reconnection_delay := 1,
    reconnection_max_delay := 600, reconnection_multiplier := 7 / 4,
    reconnection_jitter_lo := 0, reconnection_jitter_hi := 3 }

/-- The state change of Backend._delay_reconnect (after its sleep): multiply
the delay by the multiplier, clamp to the max delay, then add the jitter `j`
drawn by `random.uniform(*self._reconnection_jitter)`. -/
def delay_reconnect_update (st : BackendState) (j : ℚ) : BackendState :=
  let d := st.reconnection_delay * st.reconnection_multiplier
  let d := if d > st.reconnection_max_delay then st.reconnection_max_delay else d
  { st with reconnection_delay := d + j }

/-- Backend.reset_reconnection_count: count back to 0, delay back to 1. -/
def reset_reconnection_count (st : BackendState) : BackendState :=
  { st with reconnection_count := 0, reconnection_delay := 1 }

/-- The backend state after `n` zero-jitter failed cycles starting from a
fresh Backend (only the delay field evolves here; serve_forever separately
increments the count). -/
def zeroJitterState (n : Nat) : BackendState :=
  (fun st => delay_reconnect_update st 0)^[n] Backend.init

/-- The reconnection delay after `n` zero-jitter failed cycles starting from
a fresh Backend. -/
def zeroJitterDelay (n : Nat) : ℚ :=
  (zeroJitterState n).reconnection_delay

/- ----------------------------------------------------------------
   Helper lemmas about the Stream transitions
   ---------------------------------------------------------------- -/

lemma accept_ok_shape (s s2 : Stream) (h : s.accept = Except.ok s2) :
    s2 = { s with status := StreamStatus.in_progress } := by
  by_cases hp : s.status = StreamStatus.pending
  · simp [Stream.accept, hp] at h
    simp [h.symm]
  · simp [Stream.accept, hp] at h

lemma reject_ok_shape (s s2 : Stream) (h : s.reject = Except.ok s2) :
    s2 = { s with status := StreamStatus.rejected } := by
  by_cases hp : s.status = StreamStatus.pending
  · simp [Stream.reject, hp] at h
    simp [h.symm]
  · simp [Stream.reject, hp] at h

lemma success_ok_shape (s s2 : Stream) (h : s.success = Except.ok s2) :
    s2 = { s with status := StreamStatus.success } := by
  by_cases hp : s.status = StreamStatus.in_progress
  · simp [Stream.success, hp] at h
    simp [h.symm]
  · simp [Stream.success, hp] at h

/- ----------------------------------------------------------------
   The serve_forever loop (base.py lines 585-617)
   ---------------------------------------------------------------- -/

/-- What one call of the adapter-supplied serve_once does: return a value of
some truthiness, raise a generic exception (caught by the bare `except:`), or
raise KeyboardInterrupt. -/
inductive ServeOutcome
  | ret (truthy : Bool)
  | exn
  | interrupt
deriving DecidableEq, Repr

/-- The environment's behaviour during one loop iteration: the serve_once
outcome, whether a KeyboardInterrupt arrives during the backoff sleep (cutting
the delay update and count increment short), and the value drawn by
`random.uniform(0, 3)` for this iteration's delay update. -/
structure Cycle where
  outcome : ServeOutcome
  sleepInterrupt : Bool
  jitter : ℚ
deriving DecidableEq, Repr

/-- The externally observable events of serve_forever, in order:
log.exception on a serve_once exception, the "Reconnecting in {delay} seconds
({count} attempted reconnections so far)" log.info with the values it prints,
the completed backoff sleep with its duration, the "Interrupt received" log,
and the final shutdown() call. -/
inductive Event
  | logException
  | logReconnect (delay : ℚ) (count : Nat)
  | sleep (delay : ℚ)
  | logInterrupt
  | shutdownCall
deriving DecidableEq, Repr

/-- The state after a completed backoff: _delay_reconnect's update followed by
the `self._reconnection_count += 1` of serve_forever. -/
def afterBackoff (st : BackendState) (j : ℚ) : BackendState :=
  let st1 := delay_reconnect_update st j
  { st1 with reconnection_count := st1.reconnection_count + 1 }

/-- The while-loop of serve_forever, driven by a finite script of cycle
behaviours. It returns the events emitted, the final backend state, and
whether the loop exited (broke out or returned); an exhausted script with no
exit means the modelled run is an unfinished prefix of the loop. Mirrors the
source line by line: a truthy serve_once return breaks immediately; a
KeyboardInterrupt from serve_once logs and breaks; otherwise (falsy return,
or an exception that the bare `except:` logs first) the reconnect log.info
prints the CURRENT delay and count, the sleep runs for the current delay, and
only then are the delay updated and the count incremented — unless the
interrupt arrives during the sleep, which logs and breaks without updating
either. -/
def serveLoop : BackendState → List Cycle → List Event × BackendState × Bool
  | st, [] => ([], st, false)
  | st, c :: rest =>
    match c.outcome with
    | ServeOutcome.ret true => ([], st, true)
    | ServeOutcome.interrupt => ([Event.logInterrupt], st, true)
    | ServeOutcome.ret false =>
      if c.sleepInterrupt then
        ([Event.logReconnect st.reconnection_delay st.reconnection_count,
          Event.logInterrupt], st, true)
      else
        let r := serveLoop (afterBackoff st c.jitter) rest
        (Event.logReconnect st.reconnection_delay st.reconnection_count
           :: Event.sleep st.reconnection_delay :: r.1, r.2)
    | ServeOutcome.exn =>
      if c.sleepInterrupt then
        ([Event.logException,
          Event.logReconnect st.reconnection_delay st.reconnection_count,
          Event.logInterrupt], st, true)
      else
        let r := serveLoop (afterBackoff st c.jitter) rest
        (Event.logException
           :: Event.logReconnect st.reconnection_delay st.reconnection_count
           :: Event.sleep st.reconnection_delay :: r.1, r.2)

/-- Backend.serve_forever: run the loop; when the loop exits (and only then)
the "Trigger shutdown" path runs shutdown() exactly once. -/
def serve_forever (st : BackendState) (script : List Cycle) :
    List Event × BackendState × Bool :=
  let r := serveLoop st script
  if r.2.2 then (r.1 ++ [Event.shutdownCall], r.2) else r

/-- Recognizer for reconnection-attempt log events. -/
def Event.isReconnectLog : Event → Bool
  | Event.logReconnect _ _ => true
  | _ => false

/- ----------------------------------------------------------------
   Claims about the Stream state machine
   ---------------------------------------------------------------- -/

/-- C4: accept() succeeds and moves the status to in_progress iff the current
status is pending; reject() succeeds and moves to rejected iff pending;
success() succeeds and moves to success iff in_progress; from any other state
each of the three raises the invalid-state ValueError, and (the raise being
the only effect) the caller's stream is unchanged — in the pure embedding a
failing call returns only the error, and a succeeding call changes nothing
but the status field. -/
theorem C4_stream_guarded_transitions (s : Stream) :
    ((∃ s2, s.accept = Except.ok s2 ∧ s2.status = StreamStatus.in_progress) ↔
      s.status = StreamStatus.pending)
  ∧ ((∃ s2, s.reject = Except.ok s2 ∧ s2.status = StreamStatus.rejected) ↔
      s.status = StreamStatus.pending)
  ∧ ((∃ s2, s.success = Except.ok s2 ∧ s2.status = StreamStatus.success) ↔
      s.status = StreamStatus.in_progress)
  ∧ (s.status ≠ StreamStatus.pending →
      s.accept = Except.error (PyErr.valueError "Invalid state, the stream is not pending.")
    ∧ s.reject = Except.error (PyErr.valueError "Invalid state, the stream is not pending."))
  ∧ (s.status ≠ StreamStatus.in_progress →
      s.success = Except.error (PyErr.valueError "Invalid state, the stream is not in progress."))
  ∧ (∀ s2, s.accept = Except.ok s2 → s2 = { s with status := StreamStatus.in_progress })
  ∧ (∀ s2, s.reject = Except.ok s2 → s2 = { s with status := StreamStatus.rejected })
  ∧ (∀ s2, s.success = Except.ok s2 → s2 = { s with status := StreamStatus.success }) := by
  refine ⟨?_, ?_, ?_, ?_, ?_, accept_ok_shape s, reject_ok_shape s, success_ok_shape s⟩ <;>
    cases hs : s.status <;>
    simp [Stream.accept, Stream.reject, Stream.success, hs]

/-- Witness for C4 at concrete streams: a pending stream accepts, and a
stream in the error state fails to accept. -/
theorem C4_stream_guarded_transitions_witness :
    (∃ s2, (Stream.init (some Identifier.person) 0 none (some 100) none).accept
      = Except.ok s2 ∧ s2.status = StreamStatus.in_progress)
  ∧ ((Stream.init (some Identifier.person) 0 none (some 100) none).error "boom").accept
      = Except.error (PyErr.valueError "Invalid state, the stream is not pending.") :=
  ⟨(C4_stream_guarded_transitions
      (Stream.init (some Identifier.person) 0 none (some 100) none)).1.mpr rfl,
   ((C4_stream_guarded_transitions
      ((Stream.init (some Identifier.person) 0 none (some 100) none).error "boom")).2.2.2.1
      (by decide)).1⟩

/-- C5: error(reason) is total (it raises nothing): in every state it sets the
status to error and records the reason, and the source default argument is
DEFAULT_REASON = "unknown"; no other field changes. -/
theorem C5_stream_error_unconditional :
    DEFAULT_REASON = "unknown"
  ∧ (∀ (s : Stream) (reason : String),
      (s.error reason).status = StreamStatus.error
    ∧ (s.error reason).reason = reason
    ∧ (s.error DEFAULT_REASON).reason = "unknown"
    ∧ (s.error reason).identifier = s.identifier
    ∧ (s.error reason).transfered = s.transfered) := by
  refine ⟨rfl, fun s reason => ?_⟩
  simp [Stream.error, DEFAULT_REASON]

/-- C8 as stated is false: ack_data assigns the transferred counter to its
argument, so a smaller argument decreases it. On the concrete stream below,
ack_data 50 followed by ack_data 10 drops the counter from 50 to 10. -/
theorem C8_transfered_counterexample :
    ((Stream.init (some Identifier.person) 0 none (some 100) none).ack_data 50).transfered = 50
  ∧ (((Stream.init (some Identifier.person) 0 none (some 100) none).ack_data 50).ack_data 10).transfered = 10
  ∧ (10 : Nat) < 50 := by
  decide

/-- C8 amended: the transferred counter starts at 0; ack_data(length) sets it
to exactly the given length in any state (and can therefore decrease it); no
other Stream operation changes it. -/
theorem C8_transfered_amended :
    (∀ idt fs nm sz ty, (Stream.init idt fs nm sz ty).transfered = 0)
  ∧ (∀ (s : Stream) (length : Nat), (s.ack_data length).transfered = length)
  ∧ (∀ (s s2 : Stream), s.accept = Except.ok s2 → s2.transfered = s.transfered)
  ∧ (∀ (s s2 : Stream), s.reject = Except.ok s2 → s2.transfered = s.transfered)
  ∧ (∀ (s s2 : Stream), s.success = Except.ok s2 → s2.transfered = s.transfered)
  ∧ (∀ (s : Stream) (r : String), (s.error r).transfered = s.transfered) := by
  refine ⟨fun idt fs nm sz ty => rfl, fun s length => rfl,
    fun s s2 h => ?_, fun s s2 h => ?_, fun s s2 h => ?_, fun s r => rfl⟩
  · rw [accept_ok_shape s s2 h]
  · rw [reject_ok_shape s s2 h]
  · rw [success_ok_shape s s2 h]

/-- Witness for C8 amended at a concrete stream: accept preserves the counter
set by ack_data. -/
theorem C8_transfered_amended_witness :
    ((Stream.init none 0 none none none).ack_data 7).transfered = 7
  ∧ ({ Stream.init none 0 none none none with
       status := StreamStatus.in_progress, transfered := 7 } : Stream).transfered
     = ({ Stream.init none 0 none none none with transfered := 7 } : Stream).transfered :=
  ⟨C8_transfered_amended.2.1 (Stream.init none 0 none none none) 7,
   C8_transfered_amended.2.2.1
     ({ Stream.init none 0 none none none with transfered := 7 } : Stream)
     ({ Stream.init none 0 none none none with
        status := StreamStatus.in_progress, transfered := 7 } : Stream)
     rfl⟩

/- ----------------------------------------------------------------
   Claims about Presence construction
   ---------------------------------------------------------------- -/

/-- C7: Presence construction succeeds iff the identifier is present and at
least one of status/message is present; in the failing cases the raised error
is a ValueError, and on success the given fields are stored. -/
theorem C7_presence_construction (identifier : Option Identifier)
    (status message : Option String) :
    ((∃ p, Presence.init identifier status message = Except.ok p) ↔
      (identifier ≠ none ∧ (status ≠ none ∨ message ≠ none)))
  ∧ ((identifier = none ∨ (status = none ∧ message = none)) →
      ∃ msg, Presence.init identifier status message
        = Except.error (PyErr.valueError msg))
  ∧ (∀ p, Presence.init identifier status message = Except.ok p →
      some p.identifier = identifier ∧ p.status = status ∧ p.message = message) := by
  cases identifier <;> cases status <;> cases message <;> simp [Presence.init]

/-- Witness for C7 at concrete inputs: construction succeeds with a status
only, and fails with the two mandatory pieces missing. -/
theorem C7_presence_construction_witness :
    (∃ p, Presence.init (some Identifier.person) (some "online") none = Except.ok p)
  ∧ (∃ msg, Presence.init none none none = Except.error (PyErr.valueError msg)) :=
  ⟨(C7_presence_construction (some Identifier.person) (some "online") none).1.mpr
      (by simp),
   (C7_presence_construction none none none).2.1 (Or.inl rfl)⟩

/- ----------------------------------------------------------------
   Claims about Message classification
   ---------------------------------------------------------------- -/

/-- C6: a Room recipient makes the message a group message and not direct, a
Person recipient the reverse; the two flags are never both set, and both are
false with no recipient. -/
theorem C6_message_direct_group (m : Message) :
    (m.to_ = some Identifier.room → m.is_group = true ∧ m.is_direct = false)
  ∧ (m.to_ = some Identifier.person → m.is_direct = true ∧ m.is_group = false)
  ∧ ¬(m.is_direct = true ∧ m.is_group = true)
  ∧ (m.to_ = none → m.is_direct = false ∧ m.is_group = false) := by
  rcases m with ⟨o, b, f, t, d, e⟩
  rcases t with _ | t <;> [skip; rcases t] <;>
    simp [Message.is_direct, Message.is_group]

/-- Witness for C6 at concrete messages addressed to a room and to a
person. -/
theorem C6_message_direct_group_witness :
    (({ objId := 0, body := "", frm := none, to_ := some Identifier.room,
        delayed := false, extrasRef := 0 } : Message).is_group = true)
  ∧ (({ objId := 0, body := "", frm := none, to_ := some Identifier.person,
        delayed := false, extrasRef := 0 } : Message).is_direct = true) :=
  ⟨((C6_message_direct_group
      { objId := 0, body := "", frm := none, to_ := some Identifier.room,
        delayed := false, extrasRef := 0 }).1 rfl).1,
   ((C6_message_direct_group
      { objId := 0, body := "", frm := none, to_ := some Identifier.person,
        delayed := false, extrasRef := 0 }).2.1 rfl).1⟩

/-- C10: a RoomOccupant recipient (a subclass of neither Person nor Room) is
classified as neither direct nor group. -/
theorem C10_roomoccupant_neither_direct_nor_group (m : Message) :
    m.to_ = some Identifier.roomOccupant →
    m.is_direct = false ∧ m.is_group = false := by
  intro h
  simp [Message.is_direct, Message.is_group, h]

/-- Witness for C10 at a concrete message addressed to a room occupant. -/
theorem C10_roomoccupant_witness :
    ({ objId := 0, body := "", frm := none, to_ := some Identifier.roomOccupant,
       delayed := false, extrasRef := 0 } : Message).is_direct = false
  ∧ ({ objId := 0, body := "", frm := none, to_ := some Identifier.roomOccupant,
       delayed := false, extrasRef := 0 } : Message).is_group = false :=
  C10_roomoccupant_neither_direct_nor_group
    { objId := 0, body := "", frm := none, to_ := some Identifier.roomOccupant,
      delayed := false, extrasRef := 0 } rfl

/- ----------------------------------------------------------------
   Claims about Message.clone
   ---------------------------------------------------------------- -/

/-- C9 as stated is false: Message.__init__ stores `extras or dict()`, and an
empty dict is falsy in Python, so cloning a message whose extras mapping is
empty allocates a fresh empty dict instead of sharing the original mapping by
reference. Concretely, on a heap holding one empty extras cell 0 and a
message whose extrasRef is 0, the clone's extrasRef is the fresh cell 1. -/
theorem C9_clone_extras_counterexample :
    (Message.clone
       { objId := 0, body := "hi", frm := none, to_ := none,
         delayed := false, extrasRef := 0 }
       { cells := [[]], nextObj := 1 }).1.extrasRef = 1
  ∧ ({ objId := 0, body := "hi", frm := none, to_ := none,
       delayed := false, extrasRef := 0 } : Message).extrasRef = 0 := by
  constructor <;> rfl

/-- C9 amended: clone returns a new Message (fresh object identity) with
equal body, from, to and delayed fields; its extras is the very same mapping
object as the original's whenever the original's extras mapping is truthy
(non-empty), but when that mapping is empty the constructor's
`extras or dict()` allocates a fresh empty mapping, so the reference is not
shared in that case. -/
theorem C9_clone_amended (m : Message) (h : Heap) :
    (m.clone h).1.body = m.body
  ∧ (m.clone h).1.frm = m.frm
  ∧ (m.clone h).1.to_ = m.to_
  ∧ (m.clone h).1.delayed = m.delayed
  ∧ (m.clone h).1.objId = h.nextObj
  ∧ (m.objId < h.nextObj → (m.clone h).1.objId ≠ m.objId)
  ∧ (h.lookup m.extrasRef ≠ [] → (m.clone h).1.extrasRef = m.extrasRef)
  ∧ (h.lookup m.extrasRef = [] →
       (m.clone h).1.extrasRef = h.cells.length
     ∧ (m.clone h).2.lookup (m.clone h).1.extrasRef = []) := by
  by_cases he : h.lookup m.extrasRef = []
  · have he2 : (h.lookup m.extrasRef).isEmpty = true := by simp [he]
    refine ⟨rfl, rfl, rfl, rfl, ?_, ?_, fun hne => absurd he hne, fun _ => ⟨?_, ?_⟩⟩ <;>
      simp [Message.clone, Message.make, Heap.allocCell, he2] <;>
      try omega
    simp [Heap.lookup]
  · have he2 : (h.lookup m.extrasRef).isEmpty = false := by
      cases hx : h.lookup m.extrasRef with
      | nil => exact absurd hx he
      | cons a l => rfl
    refine ⟨rfl, rfl, rfl, rfl, ?_, ?_, fun _ => ?_, fun hemp => absurd hemp he⟩ <;>
      simp [Message.clone, Message.make, Heap.allocCell, he2]
    omega

/-- Witness for C9 amended at a concrete heap whose extras cell is non-empty:
the clone shares the reference and has a fresh identity. -/
theorem C9_clone_amended_witness :
    (Message.clone
       { objId := 2, body := "b", frm := none, to_ := none,
         delayed := false, extrasRef := 0 }
       { cells := [[("k", "v")]], nextObj := 5 }).1.extrasRef = 0
  ∧ (Message.clone
       { objId := 2, body := "b", frm := none, to_ := none,
         delayed := false, extrasRef := 0 }
       { cells := [[("k", "v")]], nextObj := 5 }).1.objId ≠ 2 :=
  ⟨(C9_clone_amended
      { objId := 2, body := "b", frm := none, to_ := none,
        delayed := false, extrasRef := 0 }
      { cells := [[("k", "v")]], nextObj := 5 }).2.2.2.2.2.2.1 (by decide),
   (C9_clone_amended
      { objId := 2, body := "b", frm := none, to_ := none,
        delayed := false, extrasRef := 0 }
      { cells := [[("k", "v")]], nextObj := 5 }).2.2.2.2.2.1 (by decide)⟩

/- ----------------------------------------------------------------
   Backoff arithmetic lemmas
   ---------------------------------------------------------------- -/

lemma delay_update_delay (st : BackendState) (j : ℚ) :
    (delay_reconnect_update st j).reconnection_delay
      = min (st.reconnection_delay * st.reconnection_multiplier)
            st.reconnection_max_delay + j := by
  unfold delay_reconnect_update
  rcases le_or_lt (st.reconnection_delay * st.reconnection_multiplier)
      st.reconnection_max_delay with hle | hlt
  · simp [not_lt.mpr hle, min_eq_left hle]
  · simp [hlt, min_eq_right hlt.le]

lemma zeroJitterState_succ (n : Nat) :
    zeroJitterState (n + 1) = delay_reconnect_update (zeroJitterState n) 0 :=
  Function.iterate_succ_apply' (fun st => delay_reconnect_update st 0) n Backend.init

lemma zeroJitterState_mult (n : Nat) :
    (zeroJitterState n).reconnection_multiplier = 7 / 4 := by
  induction n with
  | zero => rfl
  | succ n ih => rw [zeroJitterState_succ]; exact ih

lemma zeroJitterState_max (n : Nat) :
    (zeroJitterState n).reconnection_max_delay = 600 := by
  induction n with
  | zero => rfl
  | succ n ih => rw [zeroJitterState_succ]; exact ih

lemma zeroJitterDelay_eq (n : Nat) :
    zeroJitterDelay n = min ((7 / 4 : ℚ) ^ n) 600 := by
  induction n with
  | zero =>
    show (1 : ℚ) = min ((7 / 4 : ℚ) ^ 0) 600
    norm_num
  | succ n ih =>
    have h1 : zeroJitterDelay (n + 1) = min (zeroJitterDelay n * (7 / 4)) 600 + 0 := by
      unfold zeroJitterDelay
      rw [zeroJitterState_succ, delay_update_delay, zeroJitterState_mult,
        zeroJitterState_max]
    rw [h1, add_zero, ih]
    rcases le_total ((7 / 4 : ℚ) ^ n) 600 with hle | hge
    · rw [min_eq_left hle, pow_succ]
    · rw [min_eq_right hge, pow_succ]
      have h2 : (600 : ℚ) ≤ (7 / 4 : ℚ) ^ n * (7 / 4) := by nlinarith
      rw [min_eq_right h2]
      exact min_eq_right (by norm_num)

lemma zeroJitterDelay_clamped (n : Nat) (hn : 12 ≤ n) :
    zeroJitterDelay n = 600 := by
  rw [zeroJitterDelay_eq]
  have h12 : (600 : ℚ) ≤ (7 / 4 : ℚ) ^ 12 := by norm_num
  have hmono : (7 / 4 : ℚ) ^ 12 ≤ (7 / 4 : ℚ) ^ n := by
    gcongr
    · norm_num
  exact min_eq_right (le_trans h12 hmono)

/- ----------------------------------------------------------------
   Claim C1: the backoff recurrence
   ---------------------------------------------------------------- -/

/-- C1: the delay starts at 1 and each failed cycle updates it to
min(delay * 1.75, 600) plus the jitter; with the jitter ignored, after n ≥ 1
consecutive failures the delay equals min(1 * 1.75^n, 600), for n ≥ 12 the
delay is clamped to exactly 600, and reset_reconnection_count resets the
delay to 1 and the failure counter to 0. -/
theorem C1_backoff_recurrence :
    Backend.init.reconnection_delay = 1
  ∧ Backend.init.reconnection_count = 0
  ∧ (∀ (st : BackendState) (j : ℚ),
      (delay_reconnect_update st j).reconnection_delay
        = min (st.reconnection_delay * st.reconnection_multiplier)
              st.reconnection_max_delay + j)
  ∧ (∀ n : Nat, 1 ≤ n → zeroJitterDelay n = min (1 * (7 / 4 : ℚ) ^ n) 600)
  ∧ (∀ n : Nat, 12 ≤ n → zeroJitterDelay n = 600)
  ∧ (∀ st : BackendState,
      (reset_reconnection_count st).reconnection_delay = 1
    ∧ (reset_reconnection_count st).reconnection_count = 0) := by
  refine ⟨rfl, rfl, delay_update_delay, fun n _ => ?_,
    fun n hn => zeroJitterDelay_clamped n hn, fun st => ⟨rfl, rfl⟩⟩
  rw [one_mul, zeroJitterDelay_eq]

/-- Witness for C1 at n = 3, n = 13 and a concrete state reached after one
backoff step. -/
theorem C1_backoff_recurrence_witness :
    zeroJitterDelay 3 = min (1 * (7 / 4 : ℚ) ^ 3) 600
  ∧ zeroJitterDelay 13 = 600
  ∧ (reset_reconnection_count (delay_reconnect_update Backend.init 2)).reconnection_delay = 1
  ∧ (reset_reconnection_count (delay_reconnect_update Backend.init 2)).reconnection_count = 0 :=
  ⟨C1_backoff_recurrence.2.2.2.1 3 (by norm_num),
   C1_backoff_recurrence.2.2.2.2.1 13 (by norm_num),
   (C1_backoff_recurrence.2.2.2.2.2 (delay_reconnect_update Backend.init 2)).1,
   (C1_backoff_recurrence.2.2.2.2.2 (delay_reconnect_update Backend.init 2)).2⟩

/- ----------------------------------------------------------------
   Serve-loop lemmas
   ---------------------------------------------------------------- -/

lemma shutdown_not_in_serveLoop (script : List Cycle) :
    ∀ st : BackendState, Event.shutdownCall ∉ (serveLoop st script).1 := by
  induction script with
  | nil => intro st; simp [serveLoop]
  | cons c rest ih =>
    intro st
    rcases c with ⟨o, si, j⟩
    cases o with
    | ret b => cases b <;> cases si <;> simp [serveLoop, ih]
    | exn => cases si <;> simp [serveLoop, ih]
    | interrupt => simp [serveLoop]

lemma interrupt_ends_serveLoop (script : List Cycle) :
    ∀ st : BackendState, Event.logInterrupt ∈ (serveLoop st script).1 →
      ∃ pre, (serveLoop st script).1 = pre ++ [Event.logInterrupt] := by
  induction script with
  | nil => intro st h; simp [serveLoop] at h
  | cons c rest ih =>
    intro st h
    rcases c with ⟨o, si, j⟩
    cases o with
    | ret b =>
      cases b
      · cases si
        · simp only [serveLoop] at h ⊢
          simp at h
          obtain ⟨pre, hp⟩ := ih (afterBackoff st j) h
          exact ⟨Event.logReconnect st.reconnection_delay st.reconnection_count
              :: Event.sleep st.reconnection_delay :: pre, by simp [hp]⟩
        · exact ⟨[Event.logReconnect st.reconnection_delay st.reconnection_count], rfl⟩
      · simp [serveLoop] at h
    | exn =>
      cases si
      · simp only [serveLoop] at h ⊢
        simp at h
        obtain ⟨pre, hp⟩ := ih (afterBackoff st j) h
        exact ⟨Event.logException
            :: Event.logReconnect st.reconnection_delay st.reconnection_count
            :: Event.sleep st.reconnection_delay :: pre, by simp [hp]⟩
      · exact ⟨[Event.logException,
          Event.logReconnect st.reconnection_delay st.reconnection_count], rfl⟩
    | interrupt => exact ⟨[], rfl⟩

/- ----------------------------------------------------------------
   Claims C2 and C3 about serve_forever
   ---------------------------------------------------------------- -/

/-- C3: whenever the serve loop exits — a truthy serve_once return, a
KeyboardInterrupt raised during serve_once, or one raised during the backoff
sleep — shutdown() runs exactly once and is the final action of the run; and
an interrupt ends the run immediately and gracefully: the only event after
the interrupt log is the shutdown call, so no further reconnection attempt is
logged, slept or counted. -/
theorem C3_shutdown_exactly_once (st : BackendState) (script : List Cycle)
    (hexit : (serve_forever st script).2.2 = true) :
    ((serve_forever st script).1.count Event.shutdownCall = 1)
  ∧ ((serve_forever st script).1.getLast? = some Event.shutdownCall)
  ∧ (Event.logInterrupt ∈ (serve_forever st script).1 →
      ∃ pre, (serve_forever st script).1
        = pre ++ [Event.logInterrupt, Event.shutdownCall]) := by
  have hloop : (serveLoop st script).2.2 = true := by
    by_cases hb : (serveLoop st script).2.2 = true
    · exact hb
    · simp [serve_forever, hb] at hexit
  have hsf : (serve_forever st script).1
      = (serveLoop st script).1 ++ [Event.shutdownCall] := by
    simp [serve_forever, hloop]
  rw [hsf]
  refine ⟨?_, ?_, ?_⟩
  · rw [List.count_append,
      List.count_eq_zero_of_not_mem (shutdown_not_in_serveLoop script st)]
    rfl
  · simp
  · intro hmem
    have hmem2 : Event.logInterrupt ∈ (serveLoop st script).1 := by
      rcases List.mem_append.mp hmem with h | h
      · exact h
      · simp at h
    obtain ⟨pre, hp⟩ := interrupt_ends_serveLoop script st hmem2
    exact ⟨pre, by rw [hp]; simp⟩

/-- Witness for C3 on a concrete run that is interrupted during serve_once:
the exit hypothesis holds by computation. -/
theorem C3_shutdown_exactly_once_witness :
    ((serve_forever Backend.init
        [{ outcome := ServeOutcome.interrupt, sleepInterrupt := false, jitter := 0 }]).1.count
        Event.shutdownCall = 1)
  ∧ ((serve_forever Backend.init
        [{ outcome := ServeOutcome.interrupt, sleepInterrupt := false, jitter := 0 }]).1.getLast?
        = some Event.shutdownCall)
  ∧ (Event.logInterrupt ∈ (serve_forever Backend.init
        [{ outcome := ServeOutcome.interrupt, sleepInterrupt := false, jitter := 0 }]).1 →
      ∃ pre, (serve_forever Backend.init
        [{ outcome := ServeOutcome.interrupt, sleepInterrupt := false, jitter := 0 }]).1
        = pre ++ [Event.logInterrupt, Event.shutdownCall]) :=
  C3_shutdown_exactly_once Backend.init
    [{ outcome := ServeOutcome.interrupt, sleepInterrupt := false, jitter := 0 }]
    (by decide)

/-- The C2 scenario script: serve_once raises a generic exception on its
first three invocations (no interrupt, zero jitter) and then returns a truthy
shutdown sentinel. -/
def c2Script : List Cycle :=
  [{ outcome := ServeOutcome.exn, sleepInterrupt := false, jitter := 0 },
   { outcome := ServeOutcome.exn, sleepInterrupt := false, jitter := 0 },
   { outcome := ServeOutcome.exn, sleepInterrupt := false, jitter := 0 },
   { outcome := ServeOutcome.ret true, sleepInterrupt := false, jitter := 0 }]

/-- C2: under the scenario of three serve_once exceptions followed by a
truthy return, serve_forever logs exactly 3 reconnection attempts and then
calls shutdown() exactly once (as the last action); the pre-jitter backoff
delays computed after the three failed cycles are 7/4 = 1.75, 49/16 = 3.0625
and 343/64 = 5.359375 — strictly increasing and rounding to 1.75, 3.06 and
5.36 hundredths — and the final state's delay is the third of them. The full
trace (also proved) shows each reconnect log line printing the delay and
count as they stand before that iteration's update, as the source does. -/
theorem C2_three_exceptions_scenario :
    ((serve_forever Backend.init c2Script).1.countP Event.isReconnectLog = 3)
  ∧ ((serve_forever Backend.init c2Script).1.count Event.shutdownCall = 1)
  ∧ ((serve_forever Backend.init c2Script).1.getLast? = some Event.shutdownCall)
  ∧ (serve_forever Backend.init c2Script).1
      = [Event.logException, Event.logReconnect 1 0, Event.sleep 1,
         Event.logException, Event.logReconnect (7 / 4) 1, Event.sleep (7 / 4),
         Event.logException, Event.logReconnect (49 / 16) 2, Event.sleep (49 / 16),
         Event.shutdownCall]
  ∧ (serve_forever Backend.init c2Script).2.1.reconnection_delay = zeroJitterDelay 3
  ∧ zeroJitterDelay 1 = 7 / 4
  ∧ zeroJitterDelay 2 = 49 / 16
  ∧ zeroJitterDelay 3 = 343 / 64
  ∧ zeroJitterDelay 1 < zeroJitterDelay 2
  ∧ zeroJitterDelay 2 < zeroJitterDelay 3
  ∧ round (zeroJitterDelay 1 * 100) = 175
  ∧ round (zeroJitterDelay 2 * 100) = 306
  ∧ round (zeroJitterDelay 3 * 100) = 536 := by
  have hrun : serve_forever Backend.init c2Script
      = ([Event.logException, Event.logReconnect 1 0, Event.sleep 1,
          Event.logException, Event.logReconnect (7 / 4) 1, Event.sleep (7 / 4),
          Event.logException, Event.logReconnect (49 / 16) 2, Event.sleep (49 / 16),
          Event.shutdownCall],
         { reconnection_count := 3, reconnection_delay := 343 / 64,
           reconnection_max_delay := 600, reconnection_multiplier := 7 / 4,
           reconnection_jitter_lo := 0, reconnection_jitter_hi := 3 }, true) := by
    norm_num [serve_forever, serveLoop, c2Script, afterBackoff,
      delay_reconnect_update, Backend.init]
  have hd1 : zeroJitterDelay 1 = 7 / 4 := by rw [zeroJitterDelay_eq]; norm_num
  have hd2 : zeroJitterDelay 2 = 49 / 16 := by rw [zeroJitterDelay_eq]; norm_num
  have hd3 : zeroJitterDelay 3 = 343 / 64 := by rw [zeroJitterDelay_eq]; norm_num
  refine ⟨?_, ?_, ?_, ?_, ?_, hd1, hd2, hd3, ?_, ?_, ?_, ?_, ?_⟩
  · rw [hrun]; rfl
  · rw [hrun]; rfl
  · rw [hrun]; rfl
  · rw [hrun]
  · rw [hrun, hd3]
  · rw [hd1, hd2]; norm_num
  · rw [hd2, hd3]; norm_num
  · rw [hd1, round_eq]; norm_num
  · rw [hd2, round_eq]; norm_num
  · rw [hd3, round_eq]; norm_num

end Errbot
